import Mathlib

/-!
Verification development for the Miktos multi-provider AI completion layer
(`server/src/services/ai/{openaiProvider,anthropicProvider,googleaiProvider}.ts`,
`baseProvider.ts`, and the `ModelService` router).

The TypeScript sources are shallowly embedded: asynchronous provider calls
become explicit backend-valued parameters, the `onChunk` callback becomes an
accumulated list of `StreamChunk` values, thrown errors become `Except`, and
JavaScript truthiness on strings becomes an emptiness test.  Monetary costs
are modelled in `ℚ` (the pricing arithmetic in the source is exact in every
theorem below at the modelled scale).  Wall-clock delays are recorded as the
list of requested backoff durations in milliseconds.
-/

namespace Miktos

/-- Modelled from the spec: the `ContentBlockType` enum is declared in the
external `miktos-shared/types` package, which is not part of the provided
sources.  The tag values follow the spec enum names TEXT, CODE, TOOL_USE,
TOOL_RESULT, IMAGE, lowercased in the style of the wire constants that do
appear in the sources (such as the chunk types `content_delta` and `error`). -/
def ContentBlockType.TEXT : String := "text"

def ContentBlockType.CODE : String := "code"

def ContentBlockType.TOOL_USE : String := "tool_use"

def ContentBlockType.TOOL_RESULT : String := "tool_result"

def ContentBlockType.IMAGE : String := "image"

/-- A content block as consumed by `getTextFromContentBlocks`.  The source
treats blocks as untyped records and tests each field for JavaScript
truthiness; absent string fields are modelled as `""`.  The `result` field
holds the `JSON.stringify` rendering of the tool result value (serialization
itself is a collaborator concern). -/
structure ContentBlock where
  type : String
  text : String := ""
  code : String := ""
  language : String := ""
  toolName : String := ""
  result : String := ""
  caption : String := ""
  deriving DecidableEq, Repr

/-- `MessageRole` from `miktos-shared/types`: SYSTEM, USER, ASSISTANT, TOOL. -/
inductive MessageRole where
  | system
  | user
  | assistant
  | tool
  deriving DecidableEq, Repr

structure Message where
  role : MessageRole
  content : List ContentBlock
  toolCallId : Option String := none
  deriving DecidableEq, Repr

/-- An `AIModelRequest` restricted to the fields the verified claims exercise
(`temperature`, `maxTokens`, `stopSequences` and `requestId` are passed
through to the backend unchanged and never branch the control flow under
verification). -/
structure AIModelRequest where
  modelId : String
  prompt : Sum String (List Message)
  systemPrompt : Option String := none
  deriving DecidableEq, Repr

structure Usage where
  promptTokens : Nat
  completionTokens : Nat
  totalTokens : Nat
  estimatedCost : ℚ
  deriving DecidableEq, Repr

structure AIModelResponse where
  modelId : String
  provider : String
  content : String
  usage : Usage
  deriving DecidableEq, Repr

inductive ChunkPayload where
  | text (s : String)
  | error (s : String)
  deriving DecidableEq, Repr

/-- A stream chunk restricted to the fields the claims exercise; `streamId`,
`chunkId` and `timestamp` are caller-opaque and nondeterministic (wall clock)
and are not modelled. -/
structure StreamChunk where
  type : String
  payload : ChunkPayload
  isFinal : Bool
  deriving DecidableEq, Repr

/-- JavaScript truthiness of an optional string (`undefined` and `""` are
falsy). -/
def optTruthy : Option String → Bool
  | some s => s != ""
  | none => false

/-- `a || dflt` on an optional string under JavaScript truthiness. -/
def strOr (o : Option String) (dflt : String) : String :=
  match o with
  | some s => if s = "" then dflt else s
  | none => dflt

/-- The per-block rendering inside `getTextFromContentBlocks` (the lambda of
the `blocks.map` call; identical in the OpenAI, Anthropic and Google
adapters).  Each guard mirrors the source truthiness test, e.g.
`block.type === ContentBlockType.TEXT && block.text`. -/
def renderContentBlock (block : ContentBlock) : String :=
  if block.type = ContentBlockType.TEXT ∧ block.text ≠ "" then
    block.text
  else if block.type = ContentBlockType.CODE ∧ block.code ≠ "" then
    "```" ++ block.language ++ "\n" ++ block.code ++ "\n```"
  else if block.type = ContentBlockType.TOOL_USE ∧ block.toolName ≠ "" then
    "[Tool use: " ++ block.toolName ++ "]"
  else if block.type = ContentBlockType.TOOL_RESULT then
    "[Tool result: " ++ block.result ++ "]"
  else if block.type = ContentBlockType.IMAGE ∧ block.caption ≠ "" then
    "[Image: " ++ block.caption ++ "]"
  else
    "[" ++ (if block.type = "" then "unknown" else block.type) ++ " content]"

/-- `getTextFromContentBlocks` (OpenAI, Anthropic and Google adapters carry
verbatim copies of the same function): render each block and join the
renderings with a newline.  The legacy string-input branch of the source is
unreachable under the typed message model and is not represented. -/
def getTextFromContentBlocks (blocks : List ContentBlock) : String :=
  String.intercalate "\n" (blocks.map renderContentBlock)

/-- `OpenAIProvider.countTokens`: `Math.ceil(text.length / 4)`. -/
def openaiCountTokens (text : String) : Nat := (text.length + 3) / 4

/-- `GoogleAIProvider.countTokens`: `Math.ceil(text.length / 4)`. -/
def googleCountTokens (text : String) : Nat := (text.length + 3) / 4

/-- `AnthropicProvider.countTokens`: `Math.ceil(text.length / 4.5)`, which
equals `⌈2·length / 9⌉` exactly (4.5 is an exact binary double and the
quotient never rounds across an integer for representable lengths). -/
def anthropicCountTokens (text : String) : Nat := (2 * text.length + 8) / 9

/-- Modelled from the spec: the `MODEL_IDS` constants live in the external
`miktos-shared/constants` package, absent from the provided sources; the
values follow the model-naming convention the spec and `ModelService`
document (`gpt-*`, `claude-*`, `gemini-*`). -/
def MODEL_IDS.GPT_4 : String := "gpt-4"

def MODEL_IDS.GPT_4_TURBO : String := "gpt-4-turbo"

def MODEL_IDS.GPT_3_5_TURBO : String := "gpt-3.5-turbo"

def MODEL_IDS.CLAUDE_3_OPUS : String := "claude-3-opus"

def MODEL_IDS.CLAUDE_3_SONNET : String := "claude-3-sonnet"

def MODEL_IDS.CLAUDE_3_HAIKU : String := "claude-3-haiku"

def MODEL_IDS.GEMINI_PRO : String := "gemini-pro"

def MODEL_IDS.GEMINI_ULTRA : String := "gemini-ultra"

/-- The static pricing table of `OpenAIProvider.calculateCost` with its
`costs[modelId] || costs[MODEL_IDS.GPT_3_5_TURBO]` fallback (for the key
`GPT_3_5_TURBO` itself the found entry and the fallback coincide, so the
final `else` covers both). -/
def openaiModelCost (modelId : String) : ℚ × ℚ :=
  if modelId = MODEL_IDS.GPT_4 then (0.03, 0.06)
  else if modelId = MODEL_IDS.GPT_4_TURBO then (0.01, 0.03)
  else (0.0015, 0.002)

/-- `OpenAIProvider.calculateCost`. -/
def openaiCalculateCost (modelId : String) (promptTokens completionTokens : Nat) : ℚ :=
  (promptTokens : ℚ) / 1000 * (openaiModelCost modelId).1
    + (completionTokens : ℚ) / 1000 * (openaiModelCost modelId).2

/-- The static pricing table of `AnthropicProvider.calculateCost` with its
`CLAUDE_3_HAIKU` fallback. -/
def anthropicModelCost (modelId : String) : ℚ × ℚ :=
  if modelId = MODEL_IDS.CLAUDE_3_OPUS then (0.015, 0.075)
  else if modelId = MODEL_IDS.CLAUDE_3_SONNET then (0.003, 0.015)
  else (0.00025, 0.00125)

/-- `AnthropicProvider.calculateCost`. -/
def anthropicCalculateCost (modelId : String) (promptTokens completionTokens : Nat) : ℚ :=
  (promptTokens : ℚ) / 1000 * (anthropicModelCost modelId).1
    + (completionTokens : ℚ) / 1000 * (anthropicModelCost modelId).2

/-- The static pricing table of `GoogleAIProvider.calculateCost` with its
`GEMINI_PRO` fallback. -/
def googleModelCost (modelId : String) : ℚ × ℚ :=
  if modelId = MODEL_IDS.GEMINI_PRO then (0.00125, 0.00375)
  else if modelId = MODEL_IDS.GEMINI_ULTRA then (0.00375, 0.01125)
  else (0.00125, 0.00375)

/-- `GoogleAIProvider.calculateCost`. -/
def googleCalculateCost (modelId : String) (promptTokens completionTokens : Nat) : ℚ :=
  (promptTokens : ℚ) / 1000 * (googleModelCost modelId).1
    + (completionTokens : ℚ) / 1000 * (googleModelCost modelId).2

/-- An OpenAI chat message as produced by `OpenAIProvider.formatMessages`. -/
structure OAMessage where
  role : String
  content : String
  toolCallId : Option String := none
  deriving DecidableEq, Repr

/-- An Anthropic message as produced by `AnthropicProvider.formatMessages`. -/
structure AnthMessage where
  role : String
  content : String
  deriving DecidableEq, Repr

/-- A Google AI message as produced by `GoogleAIProvider.formatMessages`. -/
structure GoogleMessage where
  content : String
  author : String
  deriving DecidableEq, Repr

/-- `GoogleAIProvider.mapRoleToAuthor`. -/
def googleMapRoleToAuthor : MessageRole → String
  | .user => "user"
  | .assistant => "model"
  | .system => "system"
  | .tool => "user"

/-- `GoogleAIProvider.formatMessages` (the optional system prompt parameter
of the shared signature is unused by this adapter). -/
def googleFormatMessages (messages : List Message)
    (_systemPrompt : Option String := none) : List GoogleMessage :=
  messages.map (fun message =>
    { content := getTextFromContentBlocks message.content
      author := googleMapRoleToAuthor message.role })

/-- The `for (const message of messages)` push loop of
`OpenAIProvider.formatMessages` with its role `if`/`else if` chain. -/
def openaiFormatMessagesLoop : List Message → List OAMessage
  | [] => []
  | message :: rest =>
    (if message.role = MessageRole.system then
        [{ role := "system", content := getTextFromContentBlocks message.content }]
      else if message.role = MessageRole.user then
        [{ role := "user", content := getTextFromContentBlocks message.content }]
      else if message.role = MessageRole.assistant then
        [{ role := "assistant", content := getTextFromContentBlocks message.content }]
      else if message.role = MessageRole.tool then
        [{ role := "tool", content := getTextFromContentBlocks message.content
           toolCallId := some (strOr message.toolCallId "placeholder-tool-call-id") }]
      else [])
      ++ openaiFormatMessagesLoop rest

/-- `OpenAIProvider.formatMessages`: prepend a system message when the
`systemPrompt` argument is truthy, then convert each input message. -/
def openaiFormatMessages (messages : List Message)
    (systemPrompt : Option String := none) : List OAMessage :=
  (if optTruthy systemPrompt then
      [{ role := "system", content := systemPrompt.getD "" }]
    else [])
    ++ openaiFormatMessagesLoop messages

/-- `AnthropicProvider.formatMessages`: map each message to a user or
assistant entry, or to `null` for SYSTEM and TOOL roles, then
`.filter(Boolean)`; the system prompt parameter is unused here (system
content travels in the separate `system` request field). -/
def anthropicFormatMessages (messages : List Message)
    (_systemPrompt : Option String := none) : List AnthMessage :=
  (messages.map (fun message =>
    if message.role = MessageRole.user ∨ message.role = MessageRole.assistant then
      some { role := if message.role = MessageRole.user then "user" else "assistant"
             content := getTextFromContentBlocks message.content }
    else (none : Option AnthMessage))).reduceOption

/-- Token-usage record of an OpenAI chat completion response
(`response.usage`). -/
structure OAUsage where
  prompt_tokens : Nat
  completion_tokens : Nat
  total_tokens : Nat
  deriving DecidableEq, Repr

/-- The observable part of a successful OpenAI chat completion:
`response.choices[0]?.message?.content` and `response.usage`, both of which
the source treats as possibly absent. -/
structure OAGenResponse where
  content : Option String := none
  usage : Option OAUsage := none
  deriving DecidableEq, Repr

/-- `OpenAIProvider.generate`.  The backend argument abstracts
`this.client.chat.completions.create`, indexed by call count; the source
consults it exactly once (index 0) and has no retry loop, and its `catch`
wraps any failure as `OpenAI API Error: <message>`. -/
def openaiGenerate (req : AIModelRequest)
    (backend : Nat → Except String OAGenResponse) : Except String AIModelResponse :=
  match backend 0 with
  | .error e => .error ("OpenAI API Error: " ++ e)
  | .ok resp =>
    let content := resp.content.getD ""
    let pt := match resp.usage with | some u => u.prompt_tokens | none => 0
    let ct := match resp.usage with | some u => u.completion_tokens | none => 0
    let tt := match resp.usage with | some u => u.total_tokens | none => 0
    .ok { modelId := req.modelId
          provider := "openai"
          content := content
          usage := ⟨pt, ct, tt, openaiCalculateCost req.modelId pt ct⟩ }

/-- A block of an Anthropic API response (`response.content` entries); the
`text` field is optional, mirroring the `'text' in block` presence test. -/
structure AnthRespBlock where
  type : String := "text"
  text : Option String := none
  deriving DecidableEq, Repr

/-- `AnthropicProvider.extractTextFromContent`: take `block.text` when the
property is present (empty string when absent), `.filter(Boolean)`, join
with newlines. -/
def anthropicExtractText (content : List AnthRespBlock) : String :=
  String.intercalate "\n"
    ((content.map (fun block => block.text.getD "")).filter (fun s => s != ""))

/-- Token-usage record of an Anthropic response (`response.usage`). -/
structure AnthUsage where
  input_tokens : Nat
  output_tokens : Nat
  deriving DecidableEq, Repr

/-- The observable part of a successful Anthropic `messages.create` call. -/
structure AnthGenResponse where
  content : List AnthRespBlock := []
  usage : Option AnthUsage := none
  deriving DecidableEq, Repr

/-- `AnthropicProvider.generate`: one backend call (no retry loop); the
`catch` wraps any failure as `Anthropic API Error: <message>`. -/
def anthropicGenerate (req : AIModelRequest)
    (backend : Nat → Except String AnthGenResponse) : Except String AIModelResponse :=
  match backend 0 with
  | .error e => .error ("Anthropic API Error: " ++ e)
  | .ok resp =>
    let content := anthropicExtractText resp.content
    let inTok := match resp.usage with | some u => u.input_tokens | none => 0
    let outTok := match resp.usage with | some u => u.output_tokens | none => 0
    .ok { modelId := req.modelId
          provider := "anthropic"
          content := content
          usage := ⟨inTok, outTok, inTok + outTok,
                    anthropicCalculateCost req.modelId inTok outTok⟩ }

/-- Substring search on character lists, used to model
`String.prototype.includes`. -/
def containsSub : List Char → List Char → Bool
  | [], pat => pat.isEmpty
  | c :: rest, pat => pat.isPrefixOf (c :: rest) || containsSub rest pat

/-- `s.includes(pat)` on JavaScript strings. -/
def strIncludes (s pat : String) : Bool := containsSub s.data pat.data

/-- `s.toLowerCase()` on JavaScript strings, as a character-wise map (the
messages under scrutiny are ASCII, where the JavaScript and Unicode simple
lowercase maps agree). -/
def jsToLower (s : String) : String := String.mk (s.data.map Char.toLower)

/-- The rate-limit classification of `GoogleAIProvider.generate`:
`errorMessage.toLowerCase()` contains `quota`, `rate` or `limit`. -/
def isRateLimitError (msg : String) : Bool :=
  strIncludes (jsToLower msg) "quota" || strIncludes (jsToLower msg) "rate"
    || strIncludes (jsToLower msg) "limit"

/-- The prompt-token estimation of `GoogleAIProvider.generate`: the single
prompt string, or the sum over the message array of per-message estimates of
the rendered content. -/
def googlePromptTokens (req : AIModelRequest) : Nat :=
  match req.prompt with
  | .inl p => googleCountTokens p
  | .inr messages =>
    (messages.map (fun m => googleCountTokens (getTextFromContentBlocks m.content))).sum

/-- The successful-response construction of `GoogleAIProvider.generate`
(both prompt shapes produce this same record; Google reports no native token
counts, so usage is always estimated). -/
def googleBuildResponse (req : AIModelRequest) (content : String) : AIModelResponse :=
  let inputTokens := googlePromptTokens req
  let outputTokens := googleCountTokens content
  { modelId := req.modelId
    provider := "google"
    content := content
    usage := ⟨inputTokens, outputTokens, inputTokens + outputTokens,
              googleCalculateCost req.modelId inputTokens outputTokens⟩ }

deriving instance DecidableEq for Except

/-- Result of one `GoogleAIProvider.generate` call: how many backend calls
were made, which backoff delays were requested (in order, in milliseconds),
and the outcome. -/
structure GoogleGenResult where
  attempts : Nat
  delays : List Nat
  result : Except String AIModelResponse
  deriving DecidableEq, Repr

def googleMaxRetries : Nat := 3

/-- The `while (retries <= maxRetries)` loop of `GoogleAIProvider.generate`.
The backend abstracts the extracted content of
`response[0]?.candidates?.[0]?.content || ''`, indexed by attempt.  The
first argument is recursion fuel: each continuing iteration increments
`retries`, which the guard caps at `maxRetries`, so at most four iterations
occur and fuel 5 is never exhausted; both non-iterating branches mirror the
post-loop `Maximum retry limit reached` throw of the source. -/
def googleGenerateLoop (req : AIModelRequest) (backend : Nat → Except String String) :
    Nat → Nat → Nat → Nat → List Nat → GoogleGenResult
  | 0, _, _, attempt, delays =>
    ⟨attempt, delays.reverse, .error "Google AI API Error: Maximum retry limit reached"⟩
  | fuel + 1, retries, delay, attempt, delays =>
    if retries ≤ googleMaxRetries then
      match backend attempt with
      | .ok content =>
        ⟨attempt + 1, delays.reverse, .ok (googleBuildResponse req content)⟩
      | .error msg =>
        if isRateLimitError msg && decide (retries < googleMaxRetries) then
          googleGenerateLoop req backend fuel (retries + 1) (delay * 2) (attempt + 1)
            (delay :: delays)
        else
          ⟨attempt + 1, delays.reverse, .error ("Google AI API Error: " ++ msg)⟩
    else
      ⟨attempt, delays.reverse, .error "Google AI API Error: Maximum retry limit reached"⟩

/-- `GoogleAIProvider.generate`: `maxRetries = 3`, `retries = 0`,
`delay = 1000`. -/
def googleGenerate (req : AIModelRequest)
    (backend : Nat → Except String String) : GoogleGenResult :=
  googleGenerateLoop req backend 5 0 1000 0 []

/-- A CONTENT_DELTA chunk as emitted inside the provider streaming loops
(`isFinal: false`). -/
def deltaChunk (s : String) : StreamChunk :=
  { type := "content_delta", payload := .text s, isFinal := false }

/-- The ERROR chunk emitted by the `catch` blocks of `generateStream`
(`isFinal: true`, payload `{ error }`). -/
def errorChunk (e : String) : StreamChunk :=
  { type := "error", payload := .error e, isFinal := true }

/-- The empty final chunk emitted at the end of a completed OpenAI or
Anthropic stream (`payload: \x7b text: '' \x7d`, `isFinal: true`). -/
def finalDeltaChunk : StreamChunk :=
  { type := "content_delta", payload := .text "", isFinal := true }

/-- One iteration element of the OpenAI streaming response:
`chunk.choices[0]?.delta?.content || ''` and the optional `chunk.usage`. -/
structure OAStreamEvent where
  delta : String := ""
  usage : Option OAUsage := none
  deriving DecidableEq, Repr

/-- The `for await (const chunk of stream)` loop of
`OpenAIProvider.generateStream`: emit a chunk and extend the accumulated
content for each truthy delta, and latch prompt/completion token counts from
any event carrying usage.  Returns (emitted chunks, accumulated content,
prompt tokens, completion tokens). -/
def openaiStreamLoop : List OAStreamEvent → String → Nat → Nat →
    List StreamChunk × String × Nat × Nat
  | [], acc, pt, ct => ([], acc, pt, ct)
  | e :: es, acc, pt, ct =>
    let emitted := if e.delta = "" then ([] : List StreamChunk) else [deltaChunk e.delta]
    let acc2 := if e.delta = "" then acc else acc ++ e.delta
    let pt2 := match e.usage with | some u => u.prompt_tokens | none => pt
    let ct2 := match e.usage with | some u => u.completion_tokens | none => ct
    let rest := openaiStreamLoop es acc2 pt2 ct2
    (emitted ++ rest.1, rest.2)

/-- The delivered part of an OpenAI streaming call: the events observed
before the loop finished, and — when the underlying call or the iteration
failed — the error it threw (`none` means the stream completed). -/
structure OAStreamBackend where
  events : List OAStreamEvent := []
  terminalError : Option String := none
  deriving DecidableEq, Repr

/-- The message construction of `OpenAIProvider.generateStream` (string
prompt: optional system entry plus one user entry; message array:
`formatMessages`). -/
def openaiRequestMessages (req : AIModelRequest) : List OAMessage :=
  match req.prompt with
  | .inl p =>
    (if optTruthy req.systemPrompt then
        [{ role := "system", content := req.systemPrompt.getD "" }]
      else [])
      ++ [{ role := "user", content := p }]
  | .inr messages => openaiFormatMessages messages req.systemPrompt

/-- `OpenAIProvider.generateStream`.  On completion it estimates whichever
token totals the stream did not report, emits the empty final chunk
(`isFinal: true`) and returns the accumulated response; on failure it emits
one ERROR chunk after the already-delivered deltas and rejects with
`OpenAI Streaming Error: <message>`. -/
def openaiGenerateStream (req : AIModelRequest) (backend : OAStreamBackend) :
    List StreamChunk × Except String AIModelResponse :=
  match backend.terminalError with
  | some e =>
    ((openaiStreamLoop backend.events "" 0 0).1 ++ [errorChunk e],
      .error ("OpenAI Streaming Error: " ++ e))
  | none =>
    let r := openaiStreamLoop backend.events "" 0 0
    let acc := r.2.1
    let pt0 := r.2.2.1
    let ct0 := r.2.2.2
    let pt := if pt0 = 0 then
        ((openaiRequestMessages req).map (fun m => openaiCountTokens m.content)).sum
      else pt0
    let ct := if ct0 = 0 then openaiCountTokens acc else ct0
    (r.1 ++ [finalDeltaChunk],
      .ok { modelId := req.modelId
            provider := "openai"
            content := acc
            usage := ⟨pt, ct, pt + ct, openaiCalculateCost req.modelId pt ct⟩ })

/-- A `content_block_delta` payload of the Anthropic stream: either a text
delta (`'text' in chunk.delta`) or some other delta, carried as its
`JSON.stringify` rendering. -/
inductive AnthDelta where
  | text (s : String)
  | other (json : String)
  deriving DecidableEq, Repr

/-- One event of the Anthropic streaming response. -/
inductive AnthStreamEvent where
  | contentBlockDelta (delta : AnthDelta)
  | messageDelta (usage : Option AnthUsage)
  | otherEvent
  deriving DecidableEq, Repr

/-- The text extracted from one Anthropic delta (`chunk.delta.text || ''`,
or `JSON.stringify(chunk.delta)` for non-text deltas). -/
def anthropicDeltaText : AnthDelta → String
  | .text s => s
  | .other json => json

/-- The `for await` loop of `AnthropicProvider.generateStream`. -/
def anthropicStreamLoop : List AnthStreamEvent → String → Nat → Nat →
    List StreamChunk × String × Nat × Nat
  | [], acc, pt, ct => ([], acc, pt, ct)
  | ev :: es, acc, pt, ct =>
    match ev with
    | .contentBlockDelta d =>
      let t := anthropicDeltaText d
      let emitted := if t = "" then ([] : List StreamChunk) else [deltaChunk t]
      let acc2 := if t = "" then acc else acc ++ t
      let rest := anthropicStreamLoop es acc2 pt ct
      (emitted ++ rest.1, rest.2)
    | .messageDelta usage =>
      let pt2 := match usage with | some u => u.input_tokens | none => pt
      let ct2 := match usage with | some u => u.output_tokens | none => ct
      anthropicStreamLoop es acc pt2 ct2
    | .otherEvent => anthropicStreamLoop es acc pt ct

/-- The delivered part of an Anthropic streaming call. -/
structure AnthStreamBackend where
  events : List AnthStreamEvent := []
  terminalError : Option String := none
  deriving DecidableEq, Repr

/-- The system-prompt resolution of `AnthropicProvider.generateStream`: the
`systemPrompt` argument, overridden — only when it is falsy and the prompt
is a message array — by the rendered content of the first SYSTEM message. -/
def anthropicStreamSystem (req : AIModelRequest) : Option String :=
  match req.prompt with
  | .inl _ => req.systemPrompt
  | .inr messages =>
    if optTruthy req.systemPrompt then req.systemPrompt
    else
      match messages.find? (fun m => m.role = MessageRole.system) with
      | some m => some (getTextFromContentBlocks m.content)
      | none => req.systemPrompt

/-- The message construction of `AnthropicProvider.generateStream`. -/
def anthropicRequestMessages (req : AIModelRequest) : List AnthMessage :=
  match req.prompt with
  | .inl p => [{ role := "user", content := p }]
  | .inr messages => anthropicFormatMessages messages req.systemPrompt

/-- `AnthropicProvider.generateStream`, shaped like the OpenAI variant: on
completion, estimate missing token totals (messages plus the resolved system
prompt), emit the empty final chunk and return the accumulated response; on
failure, emit one ERROR chunk and reject with
`Anthropic Streaming Error: <message>`. -/
def anthropicGenerateStream (req : AIModelRequest) (backend : AnthStreamBackend) :
    List StreamChunk × Except String AIModelResponse :=
  match backend.terminalError with
  | some e =>
    ((anthropicStreamLoop backend.events "" 0 0).1 ++ [errorChunk e],
      .error ("Anthropic Streaming Error: " ++ e))
  | none =>
    let r := anthropicStreamLoop backend.events "" 0 0
    let acc := r.2.1
    let pt0 := r.2.2.1
    let ct0 := r.2.2.2
    let sys := anthropicStreamSystem req
    let pt := if pt0 = 0 then
        ((anthropicRequestMessages req).map (fun m => anthropicCountTokens m.content)).sum
          + (if optTruthy sys then anthropicCountTokens (sys.getD "") else 0)
      else pt0
    let ct := if ct0 = 0 then anthropicCountTokens acc else ct0
    (r.1 ++ [finalDeltaChunk],
      .ok { modelId := req.modelId
            provider := "anthropic"
            content := acc
            usage := ⟨pt, ct, pt + ct, anthropicCalculateCost req.modelId pt ct⟩ })

/-- The `while (sentChars < text.length)` loop of
`GoogleAIProvider.generateStream`: emit the next 10 characters with
`isFinal` exactly when they exhaust the text (`sentChars + 10 >=
text.length`, i.e. at most 10 characters remain).  The first argument is
recursion fuel; each iteration consumes at least one character, so fuel
equal to the initial text length is never exhausted. -/
def googleChunkLoop : Nat → List Char → List StreamChunk
  | _, [] => []
  | 0, _ :: _ => []
  | fuel + 1, c :: rest =>
    { type := "content_delta"
      payload := .text (String.mk ((c :: rest).take 10))
      isFinal := decide ((c :: rest).length ≤ 10) }
      :: googleChunkLoop fuel ((c :: rest).drop 10)

/-- `GoogleAIProvider.generateStream`: call `generate` once and re-chunk its
content in 10-character pieces; on failure (necessarily from `generate`),
emit one ERROR chunk carrying the generate error message and reject with
`Google AI Streaming Error: <message>`. -/
def googleGenerateStream (req : AIModelRequest)
    (backend : Nat → Except String String) :
    List StreamChunk × Except String AIModelResponse :=
  match (googleGenerate req backend).result with
  | .ok resp =>
    (googleChunkLoop resp.content.data.length resp.content.data, .ok resp)
  | .error e => ([errorChunk e], .error ("Google AI Streaming Error: " ++ e))

/-- `BaseModelProvider.generateStream`: the default fallback calls
`generate` once and forwards its whole content as a single final chunk; a
`generate` failure propagates with no chunk emitted (there is no `catch`). -/
def baseGenerateStream (genResult : Except String AIModelResponse) :
    List StreamChunk × Except String AIModelResponse :=
  match genResult with
  | .ok response =>
    ([{ type := "content_delta", payload := .text response.content, isFinal := true }],
      .ok response)
  | .error e => ([], .error e)

/-- The three adapters held by `ModelService.providers`. -/
inductive Adapter where
  | openaiA
  | anthropicA
  | googleA
  deriving DecidableEq, Repr

/-- The configuration read once by `ModelService`; an absent credential is
modelled as the empty (falsy) string. -/
structure AppConfig where
  openaiApiKey : String := ""
  anthropicApiKey : String := ""
  geminiApiKey : String := ""
  deriving DecidableEq, Repr

/-- Modelled from the spec: the `PROVIDERS` constants live in the external
`miktos-shared/constants` package, absent from the provided sources; the
values follow the provider identifiers the sources use for the `provider`
response field (`openai`, `anthropic`, `google`). -/
def PROVIDERS.OPENAI : String := "openai"

def PROVIDERS.ANTHROPIC : String := "anthropic"

def PROVIDERS.GOOGLE : String := "google"

/-- `ModelService.initializeProviders` as the resulting read-only map: each
provider is registered exactly when its credential is truthy. -/
def initializeProviders (config : AppConfig) : String → Option Adapter := fun p =>
  if p = PROVIDERS.OPENAI ∧ config.openaiApiKey ≠ "" then some Adapter.openaiA
  else if p = PROVIDERS.ANTHROPIC ∧ config.anthropicApiKey ≠ "" then some Adapter.anthropicA
  else if p = PROVIDERS.GOOGLE ∧ config.geminiApiKey ≠ "" then some Adapter.googleA
  else none

/-- `s.startsWith(pre)` on JavaScript strings. -/
def jsStartsWith (s pre : String) : Bool := pre.data.isPrefixOf s.data

/-- `ModelService.getProviderForModel`: classify the model id by name
prefix, then look the family up in the registry; unknown prefixes and
unregistered families both yield `null`. -/
def getProviderForModel (providers : String → Option Adapter)
    (modelId : String) : Option Adapter :=
  if jsStartsWith modelId "gpt" then providers PROVIDERS.OPENAI
  else if jsStartsWith modelId "claude" then providers PROVIDERS.ANTHROPIC
  else if jsStartsWith modelId "gemini" then providers PROVIDERS.GOOGLE
  else none

/-- The payload text of a chunk (empty for ERROR payloads). -/
def chunkPayloadText : ChunkPayload → String
  | .text s => s
  | .error _ => ""

/-- `payload.text` of a CONTENT_DELTA chunk, empty for any other chunk. -/
def chunkDeltaText (c : StreamChunk) : String :=
  if c.type = "content_delta" then chunkPayloadText c.payload else ""

/-- Concatenation, in emission order, of `payload.text` over the
CONTENT_DELTA chunks of a stream. -/
def concatDeltas : List StreamChunk → String
  | [] => ""
  | c :: cs => chunkDeltaText c ++ concatDeltas cs

/-- Exactly one chunk of the stream is final, namely the last one. -/
def isFinalExactlyLast : List StreamChunk → Bool
  | [] => false
  | [c] => c.isFinal
  | c :: d :: rest => !c.isFinal && isFinalExactlyLast (d :: rest)

/-- The ERROR chunks of a stream. -/
def errorChunksOf (cs : List StreamChunk) : List StreamChunk :=
  cs.filter (fun c => c.type == "error")

theorem mk_append_mk (a b : List Char) : String.mk a ++ String.mk b = String.mk (a ++ b) :=
  rfl

theorem string_eq_empty_iff (s : String) : s = "" ↔ s.data = [] := by
  cases s
  simp [String.ext_iff]

theorem concatDeltas_append (a b : List StreamChunk) :
    concatDeltas (a ++ b) = concatDeltas a ++ concatDeltas b := by
  induction a with
  | nil => simp [concatDeltas]
  | cons c cs ih => simp [concatDeltas, ih, String.append_assoc]

theorem chunkDeltaText_delta (s : String) (b : Bool) :
    chunkDeltaText { type := "content_delta", payload := .text s, isFinal := b } = s := by
  simp [chunkDeltaText, chunkPayloadText]

theorem openaiStreamLoop_acc (es : List OAStreamEvent) :
    ∀ acc pt ct, (openaiStreamLoop es acc pt ct).2.1
      = acc ++ concatDeltas (openaiStreamLoop es acc pt ct).1 := by
  induction es with
  | nil =>
    intro acc pt ct
    simp [openaiStreamLoop, concatDeltas]
  | cons e es ih =>
    intro acc pt ct
    by_cases h : e.delta = ""
    · simp [openaiStreamLoop, h, concatDeltas, concatDeltas_append, chunkDeltaText,
        deltaChunk, chunkPayloadText, ← ih, String.append_assoc]
    · simp only [openaiStreamLoop, h, if_neg h, ite_false]
      simp [concatDeltas, chunkDeltaText, deltaChunk, chunkPayloadText]
      rw [ih, String.append_assoc]

theorem openaiStreamLoop_chunks (es : List OAStreamEvent) :
    ∀ acc pt ct c, c ∈ (openaiStreamLoop es acc pt ct).1 →
      c.isFinal = false ∧ c.type = "content_delta" := by
  induction es with
  | nil =>
    intro acc pt ct c hc
    simp [openaiStreamLoop] at hc
  | cons e es ih =>
    intro acc pt ct c hc
    by_cases h : e.delta = "" <;>
      simp [openaiStreamLoop, h] at hc
    · exact ih _ _ _ c hc
    · rcases hc with hc | hc
      · simp [hc, deltaChunk]
      · exact ih _ _ _ c hc

theorem anthropicStreamLoop_acc (es : List AnthStreamEvent) :
    ∀ acc pt ct, (anthropicStreamLoop es acc pt ct).2.1
      = acc ++ concatDeltas (anthropicStreamLoop es acc pt ct).1 := by
  induction es with
  | nil =>
    intro acc pt ct
    simp [anthropicStreamLoop, concatDeltas]
  | cons ev es ih =>
    intro acc pt ct
    match ev with
    | .contentBlockDelta d =>
      by_cases h : anthropicDeltaText d = ""
      · simp [anthropicStreamLoop, h, concatDeltas, concatDeltas_append, chunkDeltaText,
          deltaChunk, chunkPayloadText, ← ih, String.append_assoc]
      · simp only [anthropicStreamLoop, h, if_neg h, ite_false]
        simp [concatDeltas, chunkDeltaText, deltaChunk, chunkPayloadText]
        rw [ih, String.append_assoc]
    | .messageDelta usage => simp [anthropicStreamLoop, ← ih]
    | .otherEvent => simp [anthropicStreamLoop, ← ih]

theorem anthropicStreamLoop_chunks (es : List AnthStreamEvent) :
    ∀ acc pt ct c, c ∈ (anthropicStreamLoop es acc pt ct).1 →
      c.isFinal = false ∧ c.type = "content_delta" := by
  induction es with
  | nil =>
    intro acc pt ct c hc
    simp [anthropicStreamLoop] at hc
  | cons ev es ih =>
    intro acc pt ct c hc
    match ev with
    | .contentBlockDelta d =>
      by_cases h : anthropicDeltaText d = "" <;>
        simp [anthropicStreamLoop, h] at hc
      · exact ih _ _ _ c hc
      · rcases hc with hc | hc
        · simp [hc, deltaChunk]
        · exact ih _ _ _ c hc
    | .messageDelta usage =>
      simp [anthropicStreamLoop] at hc
      exact ih _ _ _ c hc
    | .otherEvent =>
      simp [anthropicStreamLoop] at hc
      exact ih _ _ _ c hc

theorem isFinalExactlyLast_append_final (cs : List StreamChunk) (c : StreamChunk)
    (h : ∀ d ∈ cs, d.isFinal = false) (hc : c.isFinal = true) :
    isFinalExactlyLast (cs ++ [c]) = true := by
  induction cs with
  | nil => simpa [isFinalExactlyLast]
  | cons a as ih =>
    have ha : a.isFinal = false := h a (by simp)
    have hrw : (a :: as) ++ [c] = a :: (as ++ [c]) := rfl
    rw [hrw]
    cases hx : as ++ [c] with
    | nil => simp at hx
    | cons d rest =>
      rw [isFinalExactlyLast, ha, ← hx]
      simp [ih (fun d hd => h d (by simp [hd]))]

theorem errorChunksOf_append_error (cs : List StreamChunk) (e : String)
    (h : ∀ d ∈ cs, d.type = "content_delta") :
    errorChunksOf (cs ++ [errorChunk e]) = [errorChunk e] := by
  induction cs with
  | nil => simp [errorChunksOf, errorChunk]
  | cons a as ih =>
    have ha : a.type = "content_delta" := h a (by simp)
    simp [errorChunksOf, ha] at ih ⊢
    exact ih (fun d hd => h d (by simp [hd]))

theorem googleChunkLoop_nil (fuel : Nat) : googleChunkLoop fuel [] = [] := by
  cases fuel <;> rfl

theorem googleChunkLoop_cons (fuel : Nat) (c : Char) (rest : List Char) :
    googleChunkLoop (fuel + 1) (c :: rest) =
      { type := "content_delta"
        payload := .text (String.mk ((c :: rest).take 10))
        isFinal := decide ((c :: rest).length ≤ 10) }
        :: googleChunkLoop fuel ((c :: rest).drop 10) := rfl

theorem googleChunkLoop_concat :
    ∀ (fuel : Nat) (l : List Char), l.length ≤ fuel →
      concatDeltas (googleChunkLoop fuel l) = String.mk l := by
  intro fuel
  induction fuel with
  | zero =>
    intro l hl
    cases l with
    | nil => rfl
    | cons c rest => simp at hl
  | succ fuel ih =>
    intro l hl
    cases l with
    | nil => rfl
    | cons c rest =>
      have hfuel : ((c :: rest).drop 10).length ≤ fuel := by
        rw [List.length_drop, List.length_cons]
        rw [List.length_cons] at hl
        omega
      rw [googleChunkLoop_cons, concatDeltas, chunkDeltaText_delta, ih _ hfuel,
        mk_append_mk, List.take_append_drop]

theorem googleChunkLoop_ne_nil (fuel : Nat) (l : List Char)
    (hne : l ≠ []) (hfuel : 1 ≤ fuel) : googleChunkLoop fuel l ≠ [] := by
  cases fuel with
  | zero => omega
  | succ fuel =>
    cases l with
    | nil => exact absurd rfl hne
    | cons c rest => rw [googleChunkLoop_cons]; simp

theorem googleChunkLoop_final :
    ∀ (fuel : Nat) (l : List Char), l ≠ [] → l.length ≤ fuel →
      isFinalExactlyLast (googleChunkLoop fuel l) = true := by
  intro fuel
  induction fuel with
  | zero =>
    intro l hne hl
    cases l with
    | nil => exact absurd rfl hne
    | cons c rest => simp at hl
  | succ fuel ih =>
    intro l hne hl
    cases l with
    | nil => exact absurd rfl hne
    | cons c rest =>
      by_cases h10 : (c :: rest).length ≤ 10
      · have hdrop : (c :: rest).drop 10 = [] := List.drop_eq_nil_of_le h10
        rw [googleChunkLoop_cons, hdrop, googleChunkLoop_nil, isFinalExactlyLast]
        exact decide_eq_true h10
      · have hdrop : (c :: rest).drop 10 ≠ [] := by
          intro hd
          have hlen := congrArg List.length hd
          rw [List.length_drop, List.length_cons] at hlen
          rw [List.length_cons] at h10
          simp at hlen
          omega
        have hfuel : ((c :: rest).drop 10).length ≤ fuel := by
          rw [List.length_drop, List.length_cons]
          rw [List.length_cons] at hl
          omega
        have hfuel1 : 1 ≤ fuel := by
          rw [List.length_drop, List.length_cons] at hfuel
          rw [List.length_cons] at h10
          omega
        rw [googleChunkLoop_cons]
        cases hloop : googleChunkLoop fuel ((c :: rest).drop 10) with
        | nil => exact absurd hloop (googleChunkLoop_ne_nil fuel _ hdrop hfuel1)
        | cons d rest2 =>
          rw [isFinalExactlyLast]
          have hih := ih ((c :: rest).drop 10) hdrop hfuel
          rw [hloop] at hih
          rw [hih]
          have : decide ((c :: rest).length ≤ 10) = false := decide_eq_false h10
          rw [this]
          rfl

theorem googleChunkLoop_lengths :
    ∀ (fuel : Nat) (l : List Char) (ch : StreamChunk),
      ch ∈ (googleChunkLoop fuel l).dropLast → (chunkPayloadText ch.payload).length = 10 := by
  intro fuel
  induction fuel with
  | zero =>
    intro l ch hch
    cases l with
    | nil => simp [googleChunkLoop_nil] at hch
    | cons c rest =>
      have : googleChunkLoop 0 (c :: rest) = [] := rfl
      simp [this] at hch
  | succ fuel ih =>
    intro l ch hch
    cases l with
    | nil => simp [googleChunkLoop_nil] at hch
    | cons c rest =>
      rw [googleChunkLoop_cons] at hch
      cases hloop : googleChunkLoop fuel ((c :: rest).drop 10) with
      | nil => rw [hloop] at hch; simp at hch
      | cons d rest2 =>
        rw [hloop, List.dropLast_cons₂] at hch
        rcases List.mem_cons.mp hch with hch | hch
        · have hlen : ¬ (c :: rest).length ≤ 10 := by
            intro hle
            have hnil : (c :: rest).drop 10 = [] := List.drop_eq_nil_of_le hle
            rw [hnil, googleChunkLoop_nil] at hloop
            exact List.noConfusion hloop
          subst hch
          simp only [chunkPayloadText]
          show ((c :: rest).take 10).length = 10
          rw [List.length_take, List.length_cons]
          rw [List.length_cons] at hlen
          omega
        · have hmem := ih ((c :: rest).drop 10) ch
          rw [hloop] at hmem
          exact hmem hch

theorem googleChunkLoop_all_delta :
    ∀ (fuel : Nat) (l : List Char) (ch : StreamChunk),
      ch ∈ googleChunkLoop fuel l → ch.type = "content_delta" := by
  intro fuel
  induction fuel with
  | zero =>
    intro l ch hch
    cases l with
    | nil => simp [googleChunkLoop_nil] at hch
    | cons c rest =>
      have : googleChunkLoop 0 (c :: rest) = [] := rfl
      simp [this] at hch
  | succ fuel ih =>
    intro l ch hch
    cases l with
    | nil => simp [googleChunkLoop_nil] at hch
    | cons c rest =>
      rw [googleChunkLoop_cons] at hch
      rcases List.mem_cons.mp hch with hch | hch
      · simp [hch]
      · exact ih _ ch hch

/-- Concrete request used to instantiate the Google-adapter theorems. -/
def reqGem : AIModelRequest := { modelId := "gemini-pro", prompt := .inl "hi" }

/-- C1 (amended).  For every successful `generateStream` call, concatenating
`payload.text` of the CONTENT_DELTA chunks in emission order equals the
content of the returned response, on all four adapters (OpenAI, Anthropic,
Google, and the base-class fallback).  Exactly one chunk is final — and it
is the last one — on the OpenAI, Anthropic and base-class adapters always,
and on the Google adapter whenever the content is non-empty; a Google
success with empty content emits no chunks at all. -/
theorem C1_streaming_invariant :
    (∀ resp : AIModelResponse,
      concatDeltas (baseGenerateStream (.ok resp)).1 = resp.content ∧
      isFinalExactlyLast (baseGenerateStream (.ok resp)).1 = true) ∧
    (∀ (req : AIModelRequest) (events : List OAStreamEvent) (r : AIModelResponse),
      (openaiGenerateStream req ⟨events, none⟩).2 = .ok r →
        concatDeltas (openaiGenerateStream req ⟨events, none⟩).1 = r.content ∧
        isFinalExactlyLast (openaiGenerateStream req ⟨events, none⟩).1 = true) ∧
    (∀ (req : AIModelRequest) (events : List AnthStreamEvent) (r : AIModelResponse),
      (anthropicGenerateStream req ⟨events, none⟩).2 = .ok r →
        concatDeltas (anthropicGenerateStream req ⟨events, none⟩).1 = r.content ∧
        isFinalExactlyLast (anthropicGenerateStream req ⟨events, none⟩).1 = true) ∧
    (∀ (req : AIModelRequest) (backend : Nat → Except String String) (r : AIModelResponse),
      (googleGenerateStream req backend).2 = .ok r →
        concatDeltas (googleGenerateStream req backend).1 = r.content ∧
        (r.content ≠ "" → isFinalExactlyLast (googleGenerateStream req backend).1 = true) ∧
        (r.content = "" → (googleGenerateStream req backend).1 = [])) := by
  refine ⟨?_, ?_, ?_, ?_⟩
  · intro resp
    constructor
    · simp [baseGenerateStream, concatDeltas, chunkDeltaText, chunkPayloadText]
    · rfl
  · intro req events r h
    simp only [openaiGenerateStream] at h ⊢
    rw [Except.ok.injEq] at h
    subst h
    have hacc := openaiStreamLoop_acc events "" 0 0
    constructor
    · rw [concatDeltas_append]
      have h2 : concatDeltas [finalDeltaChunk] = "" := by
        simp [concatDeltas, finalDeltaChunk, chunkDeltaText_delta]
      rw [h2]
      simp at hacc
      simp [← hacc]
    · apply isFinalExactlyLast_append_final
      · intro d hd
        exact (openaiStreamLoop_chunks events "" 0 0 d hd).1
      · rfl
  · intro req events r h
    simp only [anthropicGenerateStream] at h ⊢
    rw [Except.ok.injEq] at h
    subst h
    have hacc := anthropicStreamLoop_acc events "" 0 0
    constructor
    · rw [concatDeltas_append]
      have h2 : concatDeltas [finalDeltaChunk] = "" := by
        simp [concatDeltas, finalDeltaChunk, chunkDeltaText_delta]
      rw [h2]
      simp at hacc
      simp [← hacc]
    · apply isFinalExactlyLast_append_final
      · intro d hd
        exact (anthropicStreamLoop_chunks events "" 0 0 d hd).1
      · rfl
  · intro req backend r h
    cases hres : (googleGenerate req backend).result with
    | error e => simp [googleGenerateStream, hres] at h
    | ok resp =>
      simp only [googleGenerateStream, hres] at h ⊢
      rw [Except.ok.injEq] at h
      subst h
      refine ⟨?_, ?_, ?_⟩
      · rw [googleChunkLoop_concat _ _ (le_refl _)]
      · intro hne
        apply googleChunkLoop_final _ _ _ (le_refl _)
        intro hd
        exact hne ((string_eq_empty_iff _).mpr hd)
      · intro he
        have hd : resp.content.data = [] := (string_eq_empty_iff _).mp he
        rw [hd, googleChunkLoop_nil]

/-- Witness for C1: a Google stream over the 12-character content
`hello world!` satisfies the exactly-one-final-chunk property. -/
theorem C1_witness :
    isFinalExactlyLast
        (googleGenerateStream reqGem (fun _ => .ok "hello world!")).1 = true :=
  (C1_streaming_invariant.2.2.2 reqGem (fun _ => .ok "hello world!")
      (googleBuildResponse reqGem "hello world!") rfl).2.1 (by decide)

/-- Counterexample to C1 as stated: a successful Google `generateStream`
call whose underlying content is empty emits no chunks, so no emitted chunk
has `isFinal = true`, although the call succeeds. -/
theorem C1_counterexample :
    (googleGenerateStream reqGem (fun _ => .ok "")).1 = [] ∧
    (googleGenerateStream reqGem (fun _ => .ok "")).2
      = .ok (googleBuildResponse reqGem "") ∧
    ((googleGenerateStream reqGem (fun _ => .ok "")).1.filter
        (fun c => c.isFinal)).length = 0 := by
  refine ⟨rfl, rfl, rfl⟩

/-- C10 (confirmed).  In the Google adapter's simulated streaming, every
emitted CONTENT_DELTA chunk except possibly the last carries exactly 10
characters; and when the underlying `generate` result has empty content the
call succeeds while emitting no chunks, so no final chunk is delivered. -/
theorem C10_google_chunking :
    ∀ (req : AIModelRequest) (backend : Nat → Except String String)
      (r : AIModelResponse),
      (googleGenerate req backend).result = .ok r →
      (∀ ch ∈ ((googleGenerateStream req backend).1).dropLast,
        (chunkPayloadText ch.payload).length = 10) ∧
      (r.content = "" →
        (googleGenerateStream req backend).1 = [] ∧
        (googleGenerateStream req backend).2 = .ok r ∧
        ∀ ch ∈ (googleGenerateStream req backend).1, ch.isFinal = false) := by
  intro req backend r hres
  have hstream : googleGenerateStream req backend
      = (googleChunkLoop r.content.data.length r.content.data, .ok r) := by
    simp [googleGenerateStream, hres]
  constructor
  · intro ch hch
    rw [hstream] at hch
    exact googleChunkLoop_lengths _ _ ch hch
  · intro he
    have hd : r.content.data = [] := (string_eq_empty_iff _).mp he
    rw [hstream, hd, googleChunkLoop_nil]
    exact ⟨rfl, rfl, by intro ch hch; simp at hch⟩

/-- Witness for C10: streaming the 12-character content `hello world!`
yields a 10-character first chunk (the only one before the last). -/
theorem C10_witness :
    (chunkPayloadText
        ((((googleGenerateStream reqGem (fun _ => .ok "hello world!")).1).dropLast.getD 0
          (errorChunk "none")).payload)).length = 10 :=
  (C10_google_chunking reqGem (fun _ => .ok "hello world!")
      (googleBuildResponse reqGem "hello world!") rfl).1 _ (by decide)

/-- C7 (confirmed).  Every failing `generateStream` call on the OpenAI,
Anthropic or Google adapter emits exactly one ERROR chunk — final, last,
and carrying the failure message — and also rejects the overall call with
the provider-wrapped message, so the failure is observable through both
signals. -/
theorem C7_stream_failure_dual_signal :
    (∀ (req : AIModelRequest) (events : List OAStreamEvent) (e : String),
      errorChunksOf (openaiGenerateStream req ⟨events, some e⟩).1 = [errorChunk e] ∧
      (openaiGenerateStream req ⟨events, some e⟩).1.getLast? = some (errorChunk e) ∧
      (openaiGenerateStream req ⟨events, some e⟩).2
        = .error ("OpenAI Streaming Error: " ++ e)) ∧
    (∀ (req : AIModelRequest) (events : List AnthStreamEvent) (e : String),
      errorChunksOf (anthropicGenerateStream req ⟨events, some e⟩).1 = [errorChunk e] ∧
      (anthropicGenerateStream req ⟨events, some e⟩).1.getLast? = some (errorChunk e) ∧
      (anthropicGenerateStream req ⟨events, some e⟩).2
        = .error ("Anthropic Streaming Error: " ++ e)) ∧
    (∀ (req : AIModelRequest) (backend : Nat → Except String String) (e : String),
      (googleGenerate req backend).result = .error e →
      (googleGenerateStream req backend).1 = [errorChunk e] ∧
      errorChunksOf (googleGenerateStream req backend).1 = [errorChunk e] ∧
      (googleGenerateStream req backend).2
        = .error ("Google AI Streaming Error: " ++ e)) := by
  refine ⟨?_, ?_, ?_⟩
  · intro req events e
    refine ⟨?_, ?_, rfl⟩
    · exact errorChunksOf_append_error _ e
        (fun d hd => (openaiStreamLoop_chunks events "" 0 0 d hd).2)
    · simp [openaiGenerateStream]
  · intro req events e
    refine ⟨?_, ?_, rfl⟩
    · exact errorChunksOf_append_error _ e
        (fun d hd => (anthropicStreamLoop_chunks events "" 0 0 d hd).2)
    · simp [anthropicGenerateStream]
  · intro req backend e hres
    have hstream : googleGenerateStream req backend
        = ([errorChunk e], .error ("Google AI Streaming Error: " ++ e)) := by
      simp [googleGenerateStream, hres]
    rw [hstream]
    exact ⟨rfl, rfl, rfl⟩

/-- Witness for C7: a Google backend that always fails with a permanent
error produces exactly the single wrapped ERROR chunk. -/
theorem C7_witness :
    (googleGenerateStream reqGem (fun _ => .error "boom")).1
      = [errorChunk "Google AI API Error: boom"] :=
  (C7_stream_failure_dual_signal.2.2 reqGem (fun _ => .error "boom")
      "Google AI API Error: boom" rfl).1

/-- C2 (amended).  Only the Google adapter retries: a rate/quota/limit
classified failure is retried with backoff delays 1000ms, 2000ms, 4000ms up
to 3 retries, any other failure propagates immediately with the
`Google AI API Error:` wrap after a single attempt, and after at most three
classified failures a success on attempt `k` completes the call with `k`
recorded backoff delays.  The OpenAI and Anthropic adapters never retry:
every failure — rate-limited or not — propagates immediately from the
single attempt, wrapped with provider context. -/
theorem C2_retry_policy :
    (∀ (req : AIModelRequest) (backend : Nat → Except String String) (msg : String),
      backend 0 = .error msg → isRateLimitError msg = false →
      googleGenerate req backend
        = ⟨1, [], .error ("Google AI API Error: " ++ msg)⟩) ∧
    (∀ (req : AIModelRequest) (backend : Nat → Except String String)
        (k : Nat) (content : String),
      k ≤ 3 →
      (∀ i, i < k → ∃ m, backend i = .error m ∧ isRateLimitError m = true) →
      backend k = .ok content →
      googleGenerate req backend
        = ⟨k + 1, List.take k [1000, 2000, 4000],
            .ok (googleBuildResponse req content)⟩) ∧
    (∀ (req : AIModelRequest) (backend : Nat → Except String OAGenResponse) (msg : String),
      backend 0 = .error msg →
      openaiGenerate req backend = .error ("OpenAI API Error: " ++ msg)) ∧
    (∀ (req : AIModelRequest) (backend : Nat → Except String AnthGenResponse) (msg : String),
      backend 0 = .error msg →
      anthropicGenerate req backend = .error ("Anthropic API Error: " ++ msg)) := by
  refine ⟨?_, ?_, ?_, ?_⟩
  · intro req backend msg h0 hrl
    simp [googleGenerate, googleGenerateLoop, googleMaxRetries, h0, hrl]
  · intro req backend k content hk hfail hok
    interval_cases k
    · simp [googleGenerate, googleGenerateLoop, googleMaxRetries, hok]
    · obtain ⟨m0, hm0, hr0⟩ := hfail 0 (by omega)
      simp [googleGenerate, googleGenerateLoop, googleMaxRetries, hm0, hr0, hok]
    · obtain ⟨m0, hm0, hr0⟩ := hfail 0 (by omega)
      obtain ⟨m1, hm1, hr1⟩ := hfail 1 (by omega)
      simp [googleGenerate, googleGenerateLoop, googleMaxRetries, hm0, hr0, hm1, hr1, hok]
    · obtain ⟨m0, hm0, hr0⟩ := hfail 0 (by omega)
      obtain ⟨m1, hm1, hr1⟩ := hfail 1 (by omega)
      obtain ⟨m2, hm2, hr2⟩ := hfail 2 (by omega)
      simp [googleGenerate, googleGenerateLoop, googleMaxRetries, hm0, hr0, hm1, hr1,
        hm2, hr2, hok]
  · intro req backend msg h0
    simp [openaiGenerate, h0]
  · intro req backend msg h0
    simp [anthropicGenerate, h0]

/-- Witness for C2: a Google backend that fails twice with a rate-limited
error and then succeeds completes on the third attempt after backoff
waits of 1000ms and 2000ms. -/
theorem C2_witness :
    googleGenerate reqGem
        (fun n => if n < 2 then .error "quota exhausted" else .ok "done")
      = ⟨3, [1000, 2000], .ok (googleBuildResponse reqGem "done")⟩ :=
  C2_retry_policy.2.1 reqGem
    (fun n => if n < 2 then .error "quota exhausted" else .ok "done") 2 "done"
    (by decide)
    (by
      intro i hi
      refine ⟨"quota exhausted", ?_, by decide⟩
      interval_cases i <;> rfl)
    rfl

/-- Counterexample to C2 as stated: the OpenAI adapter receives a failure
whose text indicates a rate-limit condition, yet propagates it immediately
instead of retrying, although the very next attempt would have succeeded. -/
theorem C2_counterexample :
    isRateLimitError "rate limit exceeded" = true ∧
    openaiGenerate { modelId := "gpt-4", prompt := .inl "hi" }
        (fun n => if n = 0 then .error "rate limit exceeded"
          else .ok { content := some "ok", usage := none })
      = .error ("OpenAI API Error: " ++ "rate limit exceeded") := by
  exact ⟨by decide, rfl⟩

/-- C3 (code behavior at the claimed scenario).  A backend failing with a
rate-limit classified error on every attempt makes the Google adapter fail
after exactly 3 retries (4 total attempts, backoff 1000/2000/4000ms) — but
the raised error carries the per-attempt wrap of the raw backend message,
not the distinct `Maximum retry limit reached` message, whose `throw` after
the loop is unreachable. -/
theorem C3_retry_exhaustion :
    googleGenerate reqGem (fun _ => .error "rate limit exceeded")
      = ⟨4, [1000, 2000, 4000],
          .error ("Google AI API Error: " ++ "rate limit exceeded")⟩ ∧
    ("Google AI API Error: " ++ "rate limit exceeded"
        : String) ≠ "Google AI API Error: Maximum retry limit reached" := by
  exact ⟨rfl, by decide⟩

/-- C4 (amended).  The OpenAI conversion preserves message order and maps
every role to a native entry — SYSTEM to a system-role message, TOOL to a
tool-role message with a defaulted `tool_call_id` — with a truthy
`systemPrompt` prepended as one extra system message; the Google conversion
preserves order, routes SYSTEM to a `system`-author entry and folds TOOL
into a `user`-author entry.  The Anthropic conversion keeps USER and
ASSISTANT messages in order but silently drops SYSTEM and TOOL messages
(Anthropic system content travels only through the separate `system`
request field). -/
theorem C4_formatMessages :
    (∀ messages : List Message,
      openaiFormatMessagesLoop messages = messages.map (fun m =>
        match m.role with
        | .system => { role := "system", content := getTextFromContentBlocks m.content }
        | .user => { role := "user", content := getTextFromContentBlocks m.content }
        | .assistant =>
          { role := "assistant", content := getTextFromContentBlocks m.content }
        | .tool =>
          { role := "tool", content := getTextFromContentBlocks m.content
            toolCallId := some (strOr m.toolCallId "placeholder-tool-call-id") })) ∧
    (∀ (messages : List Message) (sys : String), sys ≠ "" →
      openaiFormatMessages messages (some sys)
        = { role := "system", content := sys } :: openaiFormatMessagesLoop messages) ∧
    (∀ (messages : List Message) (sysPrompt : Option String),
      googleFormatMessages messages sysPrompt = messages.map (fun m =>
        { content := getTextFromContentBlocks m.content
          author := googleMapRoleToAuthor m.role })) ∧
    (googleMapRoleToAuthor .system = "system" ∧ googleMapRoleToAuthor .tool = "user") ∧
    (∀ (messages : List Message) (sysPrompt : Option String),
      anthropicFormatMessages messages sysPrompt = messages.filterMap (fun m =>
        match m.role with
        | .user => some { role := "user", content := getTextFromContentBlocks m.content }
        | .assistant =>
          some { role := "assistant", content := getTextFromContentBlocks m.content }
        | .system => none
        | .tool => none)) := by
  refine ⟨?_, ?_, ?_, ⟨rfl, rfl⟩, ?_⟩
  · intro messages
    induction messages with
    | nil => rfl
    | cons m ms ih =>
      cases hr : m.role <;>
        simp [openaiFormatMessagesLoop, hr, ih]
  · intro messages sys hsys
    simp [openaiFormatMessages, optTruthy, hsys]
  · intro messages sysPrompt
    rfl
  · intro messages sysPrompt
    induction messages with
    | nil => rfl
    | cons m ms ih =>
      cases hr : m.role <;>
        simp [anthropicFormatMessages, hr, List.reduceOption] at ih ⊢ <;>
        exact ih

/-- Witness for C4: a truthy system prompt becomes a leading system-role
message in the OpenAI conversion. -/
theorem C4_witness :
    openaiFormatMessages [] (some "be brief")
      = { role := "system", content := "be brief" } :: openaiFormatMessagesLoop [] :=
  C4_formatMessages.2.1 [] "be brief" (by decide)

/-- Counterexample to C4 as stated: the Anthropic conversion silently drops
a SYSTEM message and a TOOL message — neither is routed into any entry of
the produced message array. -/
theorem C4_counterexample :
    anthropicFormatMessages
        [{ role := MessageRole.system
           content := [{ type := ContentBlockType.TEXT, text := "You are terse." }] }]
        none
      = [] ∧
    anthropicFormatMessages
        [{ role := MessageRole.tool
           content := [{ type := ContentBlockType.TEXT, text := "tool output" }]
           toolCallId := some "call-1" }]
        none
      = [] := by
  exact ⟨rfl, rfl⟩

/-- C5 (amended).  The Google adapter computes usage for a successful
non-streaming `generate` by summing its token estimates over every input
message (or over the single prompt string) plus the output text.  The
OpenAI and Anthropic adapters use the token counts natively reported by the
backend; when the backend omits them, the counts fall back to 0 — not to
the estimator (Anthropic totals input+output; OpenAI takes the native
total). -/
theorem C5_usage_accounting :
    (∀ (req : AIModelRequest) (content : String),
      (googleBuildResponse req content).usage.promptTokens = googlePromptTokens req ∧
      (googleBuildResponse req content).usage.completionTokens
        = googleCountTokens content ∧
      (googleBuildResponse req content).usage.totalTokens
        = googlePromptTokens req + googleCountTokens content) ∧
    (∀ (req : AIModelRequest) (messages : List Message),
      req.prompt = .inr messages →
      googlePromptTokens req
        = (messages.map
            (fun m => googleCountTokens (getTextFromContentBlocks m.content))).sum) ∧
    (∀ (req : AIModelRequest) (p : String),
      req.prompt = .inl p → googlePromptTokens req = googleCountTokens p) ∧
    (∀ (req : AIModelRequest) (backend : Nat → Except String OAGenResponse)
        (resp : OAGenResponse) (u : OAUsage),
      backend 0 = .ok resp → resp.usage = some u →
      openaiGenerate req backend
        = .ok { modelId := req.modelId
                provider := "openai"
                content := resp.content.getD ""
                usage := ⟨u.prompt_tokens, u.completion_tokens, u.total_tokens,
                  openaiCalculateCost req.modelId u.prompt_tokens u.completion_tokens⟩ }) ∧
    (∀ (req : AIModelRequest) (backend : Nat → Except String AnthGenResponse)
        (resp : AnthGenResponse) (u : AnthUsage),
      backend 0 = .ok resp → resp.usage = some u →
      anthropicGenerate req backend
        = .ok { modelId := req.modelId
                provider := "anthropic"
                content := anthropicExtractText resp.content
                usage := ⟨u.input_tokens, u.output_tokens,
                  u.input_tokens + u.output_tokens,
                  anthropicCalculateCost req.modelId u.input_tokens u.output_tokens⟩ }) ∧
    (∀ (req : AIModelRequest) (backend : Nat → Except String OAGenResponse)
        (resp : OAGenResponse),
      backend 0 = .ok resp → resp.usage = none →
      openaiGenerate req backend
        = .ok { modelId := req.modelId
                provider := "openai"
                content := resp.content.getD ""
                usage := ⟨0, 0, 0, openaiCalculateCost req.modelId 0 0⟩ }) ∧
    (∀ (req : AIModelRequest) (backend : Nat → Except String AnthGenResponse)
        (resp : AnthGenResponse),
      backend 0 = .ok resp → resp.usage = none →
      anthropicGenerate req backend
        = .ok { modelId := req.modelId
                provider := "anthropic"
                content := anthropicExtractText resp.content
                usage := ⟨0, 0, 0, anthropicCalculateCost req.modelId 0 0⟩ }) := by
  refine ⟨?_, ?_, ?_, ?_, ?_, ?_, ?_⟩
  · intro req content
    exact ⟨rfl, rfl, rfl⟩
  · intro req messages hp
    simp [googlePromptTokens, hp]
  · intro req p hp
    simp [googlePromptTokens, hp]
  · intro req backend resp u h0 hu
    simp [openaiGenerate, h0, hu]
  · intro req backend resp u h0 hu
    simp [anthropicGenerate, h0, hu]
  · intro req backend resp h0 hu
    simp [openaiGenerate, h0, hu]
  · intro req backend resp h0 hu
    simp [anthropicGenerate, h0, hu]

/-- Witness for C5: natively reported OpenAI token counts land unchanged in
the returned usage. -/
theorem C5_witness :
    openaiGenerate { modelId := "gpt-4", prompt := .inl "hello" }
        (fun _ => .ok { content := some "world!", usage := some ⟨7, 9, 16⟩ })
      = .ok { modelId := "gpt-4"
              provider := "openai"
              content := "world!"
              usage := ⟨7, 9, 16, openaiCalculateCost "gpt-4" 7 9⟩ } :=
  C5_usage_accounting.2.2.2.1 { modelId := "gpt-4", prompt := .inl "hello" }
    (fun _ => .ok { content := some "world!", usage := some ⟨7, 9, 16⟩ })
    { content := some "world!", usage := some ⟨7, 9, 16⟩ } ⟨7, 9, 16⟩ rfl rfl

/-- Counterexample to C5 as stated: a successful OpenAI `generate` whose
backend response carries no usage object returns zero token counts, not the
sum of the adapter token estimates (which is 4 for this input). -/
theorem C5_counterexample :
    (openaiGenerate { modelId := "gpt-4", prompt := .inl "hello" }
        (fun _ => .ok { content := some "world!", usage := none })).map
        (fun r => r.usage.promptTokens + r.usage.completionTokens)
      = .ok 0 ∧
    openaiCountTokens "hello" + openaiCountTokens "world!" = 4 := by
  exact ⟨rfl, by decide⟩

/-- C6 (amended).  `getTextFromContentBlocks` is total and deterministic
and joins, in order, the rendering of each block with newlines.  A TEXT
block with non-empty text renders as its raw text, a CODE block with
non-empty code as a fenced block tagged with its language, a TOOL_USE block
with non-empty tool name as a `[Tool use: _]` marker, a TOOL_RESULT block —
unconditionally — as a `[Tool result: _]` marker over the serialized
result, an IMAGE block with non-empty caption as an `[Image: _]` marker;
every other block, including TEXT/CODE/TOOL_USE/IMAGE blocks whose guarded
field is empty, degrades to the bracketed `[<type> content]` placeholder
(`[unknown content]` when the type tag is itself empty). -/
theorem C6_blocksToText :
    (∀ b : ContentBlock, b.type = ContentBlockType.TEXT → b.text ≠ "" →
      renderContentBlock b = b.text) ∧
    (∀ b : ContentBlock, b.type = ContentBlockType.CODE → b.code ≠ "" →
      renderContentBlock b = "```" ++ b.language ++ "\n" ++ b.code ++ "\n```") ∧
    (∀ b : ContentBlock, b.type = ContentBlockType.TOOL_USE → b.toolName ≠ "" →
      renderContentBlock b = "[Tool use: " ++ b.toolName ++ "]") ∧
    (∀ b : ContentBlock, b.type = ContentBlockType.TOOL_RESULT →
      renderContentBlock b = "[Tool result: " ++ b.result ++ "]") ∧
    (∀ b : ContentBlock, b.type = ContentBlockType.IMAGE → b.caption ≠ "" →
      renderContentBlock b = "[Image: " ++ b.caption ++ "]") ∧
    (∀ b : ContentBlock,
      b.type ∉ [ContentBlockType.TEXT, ContentBlockType.CODE, ContentBlockType.TOOL_USE,
        ContentBlockType.TOOL_RESULT, ContentBlockType.IMAGE] →
      b.type ≠ "" →
      renderContentBlock b = "[" ++ b.type ++ " content]") ∧
    (∀ b : ContentBlock, b.type = ContentBlockType.TEXT → b.text = "" →
      renderContentBlock b = "[" ++ b.type ++ " content]") ∧
    (∀ b : ContentBlock, b.type = ContentBlockType.CODE → b.code = "" →
      renderContentBlock b = "[" ++ b.type ++ " content]") ∧
    (∀ b : ContentBlock, b.type = ContentBlockType.TOOL_USE → b.toolName = "" →
      renderContentBlock b = "[" ++ b.type ++ " content]") ∧
    (∀ b : ContentBlock, b.type = ContentBlockType.IMAGE → b.caption = "" →
      renderContentBlock b = "[" ++ b.type ++ " content]") ∧
    (∀ b : ContentBlock, b.type = "" →
      renderContentBlock b = "[unknown content]") ∧
    (∀ blocks : List ContentBlock,
      getTextFromContentBlocks blocks
        = String.intercalate "\n" (blocks.map renderContentBlock)) := by
  refine ⟨?_, ?_, ?_, ?_, ?_, ?_, ?_, ?_, ?_, ?_, ?_, fun _ => rfl⟩
  · intro b h1 h2
    simp [renderContentBlock, h1, h2]
  · intro b h1 h2
    simp [renderContentBlock, h1, h2, ContentBlockType.TEXT, ContentBlockType.CODE]
  · intro b h1 h2
    simp [renderContentBlock, h1, h2, ContentBlockType.TEXT, ContentBlockType.CODE,
      ContentBlockType.TOOL_USE]
  · intro b h1
    simp [renderContentBlock, h1, ContentBlockType.TEXT, ContentBlockType.CODE,
      ContentBlockType.TOOL_USE, ContentBlockType.TOOL_RESULT]
  · intro b h1 h2
    simp [renderContentBlock, h1, h2, ContentBlockType.TEXT, ContentBlockType.CODE,
      ContentBlockType.TOOL_USE, ContentBlockType.TOOL_RESULT, ContentBlockType.IMAGE]
  · intro b h1 h2
    simp only [List.mem_cons, List.mem_singleton, not_or] at h1
    obtain ⟨ht, hc, hu, hr, hi, -⟩ := h1
    simp [renderContentBlock, ht, hc, hu, hr, hi, h2]
  · intro b h1 h2
    simp [renderContentBlock, h1, h2, ContentBlockType.TEXT, ContentBlockType.CODE,
      ContentBlockType.TOOL_USE, ContentBlockType.TOOL_RESULT, ContentBlockType.IMAGE]
  · intro b h1 h2
    simp [renderContentBlock, h1, h2, ContentBlockType.TEXT, ContentBlockType.CODE,
      ContentBlockType.TOOL_USE, ContentBlockType.TOOL_RESULT, ContentBlockType.IMAGE]
  · intro b h1 h2
    simp [renderContentBlock, h1, h2, ContentBlockType.TEXT, ContentBlockType.CODE,
      ContentBlockType.TOOL_USE, ContentBlockType.TOOL_RESULT, ContentBlockType.IMAGE]
  · intro b h1 h2
    simp [renderContentBlock, h1, h2, ContentBlockType.TEXT, ContentBlockType.CODE,
      ContentBlockType.TOOL_USE, ContentBlockType.TOOL_RESULT, ContentBlockType.IMAGE]
  · intro b h1
    simp [renderContentBlock, h1, ContentBlockType.TEXT, ContentBlockType.CODE,
      ContentBlockType.TOOL_USE, ContentBlockType.TOOL_RESULT, ContentBlockType.IMAGE]

/-- Witness for C6: a TEXT block with non-empty text renders as its raw
text. -/
theorem C6_witness :
    renderContentBlock { type := ContentBlockType.TEXT, text := "hi" } = "hi" :=
  C6_blocksToText.1 { type := ContentBlockType.TEXT, text := "hi" } rfl (by decide)

/-- Counterexample to C6 as stated: a TEXT block whose text is the empty
string does not render as its raw text — the truthiness guard fails and the
block degrades to the bracketed placeholder. -/
theorem C6_counterexample :
    getTextFromContentBlocks [{ type := ContentBlockType.TEXT, text := "" }]
      = "[text content]" ∧ ("[text content]" : String) ≠ "" := by
  exact ⟨rfl, by decide⟩

/-- C8 (confirmed).  Router resolution is the deterministic function
`getProviderForModel`: with the corresponding credential configured,
`gpt-4` resolves to the OpenAI adapter, `claude-3-haiku` to the Anthropic
adapter and `gemini-pro` to the Google adapter; `unknown-model-x` resolves
to `null` under every configuration, and a recognized prefix whose adapter
was never registered (missing credential) also resolves to `null`. -/
theorem C8_router_resolution :
    ∀ config : AppConfig,
      (config.openaiApiKey ≠ "" →
        getProviderForModel (initializeProviders config) "gpt-4"
          = some Adapter.openaiA) ∧
      (config.anthropicApiKey ≠ "" →
        getProviderForModel (initializeProviders config) "claude-3-haiku"
          = some Adapter.anthropicA) ∧
      (config.geminiApiKey ≠ "" →
        getProviderForModel (initializeProviders config) "gemini-pro"
          = some Adapter.googleA) ∧
      getProviderForModel (initializeProviders config) "unknown-model-x" = none ∧
      (config.openaiApiKey = "" →
        getProviderForModel (initializeProviders config) "gpt-4" = none) := by
  intro config
  refine ⟨?_, ?_, ?_, ?_, ?_⟩
  · intro h
    simp [getProviderForModel, initializeProviders, jsStartsWith,
      PROVIDERS.OPENAI, PROVIDERS.ANTHROPIC, PROVIDERS.GOOGLE, h]
  · intro h
    simp [getProviderForModel, initializeProviders, jsStartsWith,
      PROVIDERS.OPENAI, PROVIDERS.ANTHROPIC, PROVIDERS.GOOGLE, h]
  · intro h
    simp [getProviderForModel, initializeProviders, jsStartsWith,
      PROVIDERS.OPENAI, PROVIDERS.ANTHROPIC, PROVIDERS.GOOGLE, h]
  · simp [getProviderForModel, jsStartsWith]
  · intro h
    simp [getProviderForModel, initializeProviders, jsStartsWith,
      PROVIDERS.OPENAI, PROVIDERS.ANTHROPIC, PROVIDERS.GOOGLE, h]

/-- Witness for C8: with all three credentials configured, `gpt-4` resolves
to the OpenAI adapter. -/
theorem C8_witness :
    getProviderForModel (initializeProviders ⟨"sk-oa", "sk-an", "sk-ge"⟩) "gpt-4"
      = some Adapter.openaiA :=
  (C8_router_resolution ⟨"sk-oa", "sk-an", "sk-ge"⟩).1 (by decide)

theorem openaiModelCost_nonneg (m : String) :
    0 ≤ (openaiModelCost m).1 ∧ 0 ≤ (openaiModelCost m).2 := by
  unfold openaiModelCost
  split_ifs <;> norm_num

theorem anthropicModelCost_nonneg (m : String) :
    0 ≤ (anthropicModelCost m).1 ∧ 0 ≤ (anthropicModelCost m).2 := by
  unfold anthropicModelCost
  split_ifs <;> norm_num

theorem googleModelCost_nonneg (m : String) :
    0 ≤ (googleModelCost m).1 ∧ 0 ≤ (googleModelCost m).2 := by
  unfold googleModelCost
  split_ifs <;> norm_num

/-- C9 (confirmed).  For each of the three cost estimators with a fixed
model id: the estimate is non-decreasing in both token arguments, equals 0
at zero tokens, is never negative, and an unknown model id is priced at the
designated default tier of its provider (GPT-3.5-Turbo, Claude 3 Haiku,
Gemini Pro respectively) rather than failing. -/
theorem C9_cost_estimator :
    (∀ (m : String) (pt ct pt2 ct2 : Nat), pt ≤ pt2 → ct ≤ ct2 →
      openaiCalculateCost m pt ct ≤ openaiCalculateCost m pt2 ct2) ∧
    (∀ m : String, openaiCalculateCost m 0 0 = 0) ∧
    (∀ (m : String) (pt ct : Nat), 0 ≤ openaiCalculateCost m pt ct) ∧
    (∀ m : String, m ≠ MODEL_IDS.GPT_4 → m ≠ MODEL_IDS.GPT_4_TURBO →
      m ≠ MODEL_IDS.GPT_3_5_TURBO → ∀ pt ct : Nat,
      openaiCalculateCost m pt ct
        = openaiCalculateCost MODEL_IDS.GPT_3_5_TURBO pt ct) ∧
    (∀ (m : String) (pt ct pt2 ct2 : Nat), pt ≤ pt2 → ct ≤ ct2 →
      anthropicCalculateCost m pt ct ≤ anthropicCalculateCost m pt2 ct2) ∧
    (∀ m : String, anthropicCalculateCost m 0 0 = 0) ∧
    (∀ (m : String) (pt ct : Nat), 0 ≤ anthropicCalculateCost m pt ct) ∧
    (∀ m : String, m ≠ MODEL_IDS.CLAUDE_3_OPUS → m ≠ MODEL_IDS.CLAUDE_3_SONNET →
      m ≠ MODEL_IDS.CLAUDE_3_HAIKU → ∀ pt ct : Nat,
      anthropicCalculateCost m pt ct
        = anthropicCalculateCost MODEL_IDS.CLAUDE_3_HAIKU pt ct) ∧
    (∀ (m : String) (pt ct pt2 ct2 : Nat), pt ≤ pt2 → ct ≤ ct2 →
      googleCalculateCost m pt ct ≤ googleCalculateCost m pt2 ct2) ∧
    (∀ m : String, googleCalculateCost m 0 0 = 0) ∧
    (∀ (m : String) (pt ct : Nat), 0 ≤ googleCalculateCost m pt ct) ∧
    (∀ m : String, m ≠ MODEL_IDS.GEMINI_PRO → m ≠ MODEL_IDS.GEMINI_ULTRA →
      ∀ pt ct : Nat,
      googleCalculateCost m pt ct
        = googleCalculateCost MODEL_IDS.GEMINI_PRO pt ct) := by
  refine ⟨?_, ?_, ?_, ?_, ?_, ?_, ?_, ?_, ?_, ?_, ?_, ?_⟩
  · intro m pt ct pt2 ct2 h1 h2
    unfold openaiCalculateCost
    have c1 := (openaiModelCost_nonneg m).1
    have c2 := (openaiModelCost_nonneg m).2
    gcongr
  · intro m
    simp [openaiCalculateCost]
  · intro m pt ct
    have c1 := (openaiModelCost_nonneg m).1
    have c2 := (openaiModelCost_nonneg m).2
    unfold openaiCalculateCost
    positivity
  · intro m h1 h2 h3 pt ct
    simp only [ MODEL_IDS.GPT_4, MODEL_IDS.GPT_4_TURBO, MODEL_IDS.GPT_3_5_TURBO] at h1 h2 h3
    simp [openaiCalculateCost, openaiModelCost, h1, h2, MODEL_IDS.GPT_4,
      MODEL_IDS.GPT_4_TURBO, MODEL_IDS.GPT_3_5_TURBO]
  · intro m pt ct pt2 ct2 h1 h2
    unfold anthropicCalculateCost
    have c1 := (anthropicModelCost_nonneg m).1
    have c2 := (anthropicModelCost_nonneg m).2
    gcongr
  · intro m
    simp [anthropicCalculateCost]
  · intro m pt ct
    have c1 := (anthropicModelCost_nonneg m).1
    have c2 := (anthropicModelCost_nonneg m).2
    unfold anthropicCalculateCost
    positivity
  · intro m h1 h2 h3 pt ct
    simp only [ MODEL_IDS.CLAUDE_3_OPUS, MODEL_IDS.CLAUDE_3_SONNET,
      MODEL_IDS.CLAUDE_3_HAIKU] at h1 h2 h3
    simp [anthropicCalculateCost, anthropicModelCost, h1, h2, MODEL_IDS.CLAUDE_3_OPUS,
      MODEL_IDS.CLAUDE_3_SONNET, MODEL_IDS.CLAUDE_3_HAIKU]
  · intro m pt ct pt2 ct2 h1 h2
    unfold googleCalculateCost
    have c1 := (googleModelCost_nonneg m).1
    have c2 := (googleModelCost_nonneg m).2
    gcongr
  · intro m
    simp [googleCalculateCost]
  · intro m pt ct
    have c1 := (googleModelCost_nonneg m).1
    have c2 := (googleModelCost_nonneg m).2
    unfold googleCalculateCost
    positivity
  · intro m h1 h2 pt ct
    simp only [ MODEL_IDS.GEMINI_PRO, MODEL_IDS.GEMINI_ULTRA] at h1 h2
    simp [googleCalculateCost, googleModelCost, h1, h2, MODEL_IDS.GEMINI_PRO,
      MODEL_IDS.GEMINI_ULTRA]

/-- Witness for C9: cost monotonicity at a concrete model and token
counts. -/
theorem C9_witness :
    openaiCalculateCost "gpt-4" 10 10 ≤ openaiCalculateCost "gpt-4" 20 30 :=
  C9_cost_estimator.1 "gpt-4" 10 10 20 30 (by decide) (by decide)

end Miktos
